import Mathlib

/-!
Verification of the KitProg SWD transaction queue
(`src/jtag/drivers/kitprog.c`) and the PSoC5 flash driver
(`src/flash/nor/psoc5.c`), shallowly embedded in Lean 4.

USB transfers and target register accesses are modelled as oracles
(functions/values supplied as parameters) so that every driver function
becomes a pure function of its inputs and the oracle.
-/

namespace OpenOCD

/-! ### Error codes

Modelled from the spec: the OpenOCD error constants (`ERROR_OK`,
`ERROR_FAIL`, `ERROR_TARGET_NOT_HALTED`) are declared in headers that are
not part of this repository snapshot.  Only `ERROR_OK = 0` and the
distinctness of the codes matter to the driver logic. -/

def ERROR_OK : Int := 0
def ERROR_FAIL : Int := -4
def ERROR_TARGET_NOT_HALTED : Int := -304

/-! ### SWD command bits

Modelled from the spec: the `SWD_CMD_*` bit constants live in
`jtag/swd.h`, which is not part of this repository snapshot.  The spec
describes the header byte as "start/park bits set and stop bit cleared";
the values below are the standard ARM SWD request-byte layout used by
those headers (start = bit 0, RnW = bit 2, stop = bit 6, park = bit 7). -/

def SWD_CMD_START : Nat := 0x01
def SWD_CMD_APnDP : Nat := 0x02
def SWD_CMD_RnW : Nat := 0x04
def SWD_CMD_STOP : Nat := 0x40
def SWD_CMD_PARK : Nat := 0x80

/-- The constant `SWD_MAX_BUFFER_LENGTH` (512). -/
def SWD_MAX_BUFFER_LENGTH : Nat := 512

/-- The queue capacity `pending_queue_len = SWD_MAX_BUFFER_LENGTH / 5` (set in `kitprog_init`);
the negotiated `packet_size` is also `SWD_MAX_BUFFER_LENGTH`. -/
def pending_queue_len : Nat := SWD_MAX_BUFFER_LENGTH / 5

/-- One queued register access (`struct pending_transfer_result`).
`buffer` is the caller's output slot, modelled as an optional slot
identifier (`none` = null pointer). -/
structure PendingTransfer where
  cmd : Nat
  data : Nat
  buffer : Option Nat
deriving Repr, DecidableEq

/-- Whether `cmd & SWD_CMD_RnW` marks a read-type transaction. -/
def isReadCmd (cmd : Nat) : Bool := cmd &&& SWD_CMD_RnW != 0

/-- Transport oracle for one flush: the result of the bulk write, the
result of the bulk read, and the contents of the packet buffer after the
bulk read (byte at each index). -/
structure Transport where
  writeRet : Int
  readRet : Int
  readBuf : Nat → Nat

/-- One iteration of the serialization loop in `kitprog_swd_run_queue`:
append the header byte `(cmd | SWD_CMD_START | SWD_CMD_PARK) & ~SWD_CMD_STOP`,
then for a write command the 4 data bytes in little-endian order. -/
def serializeStep (buf : List Nat) (e : PendingTransfer) : List Nat :=
  let buf := buf ++ [(e.cmd ||| SWD_CMD_START ||| SWD_CMD_PARK) &&& (0xff ^^^ SWD_CMD_STOP)]
  if isReadCmd e.cmd then
    buf
  else
    buf ++ [e.data &&& 0xff, (e.data >>> 8) &&& 0xff,
            (e.data >>> 16) &&& 0xff, (e.data >>> 24) &&& 0xff]

/-- The bytes placed in `packet_buffer` by the serialization loop
(`write_count` bytes). -/
def writeBuffer (q : List PendingTransfer) : List Nat :=
  q.foldl serializeStep []

/-- The `read_count` accumulated by the serialization loop:
1 per transaction plus 4 per read-type transaction. -/
def readCountOf (q : List PendingTransfer) : Nat :=
  q.foldl (fun n e => n + 1 + (if isReadCmd e.cmd then 4 else 0)) 0

/-- Little-endian 32-bit decode (`le_to_h_u32`) of 4 consecutive buffer
bytes starting at index `i`. -/
def le32 (buf : Nat → Nat) (i : Nat) : Nat :=
  buf i ||| (buf (i + 1)) <<< 8 ||| (buf (i + 2)) <<< 16 ||| (buf (i + 3)) <<< 24

/-- The response-decoding loop of `kitprog_swd_run_queue`: walk the
pending transfers in order with cursor `idx`; for a read-type entry decode
4 little-endian bytes, store them into the output slot when non-null and
advance by 4; for every entry advance by 1 further (ack) byte.  Returns
the list of (slot, value) stores in the order they are performed. -/
def decodeLoop (buf : Nat → Nat) : List PendingTransfer → Nat → List (Nat × Nat)
  | [], _ => []
  | e :: rest, idx =>
    if isReadCmd e.cmd then
      (match e.buffer with
       | some slot => [(slot, le32 buf idx)]
       | none => []) ++ decodeLoop buf rest (idx + 4 + 1)
    else
      decodeLoop buf rest (idx + 1)

/-- Result of one `kitprog_swd_run_queue` call. -/
structure RunResult where
  retval : Int
  pendingAfter : List PendingTransfer
  stickyAfter : Int
  wrote : Option (List Nat)
  readIssued : Bool
  readStart : Option Nat
  stores : List (Nat × Nat)
deriving Repr

/-- The flush `kitprog_swd_run_queue`, as a function of the sticky error
(`queued_retval`), the pending queue and the transport oracle.

The `do { ... } while (0)` with `break`s becomes nested conditionals; at
the end of every path `pending_transfer_count = 0`, the returned value is
the final `queued_retval`, and `queued_retval` is reset to `ERROR_OK`. -/
def kitprog_swd_run_queue (queued_retval : Int) (pending : List PendingTransfer)
    (tr : Transport) : RunResult :=
  if queued_retval ≠ ERROR_OK then
    { retval := queued_retval, pendingAfter := [], stickyAfter := ERROR_OK,
      wrote := none, readIssued := false, readStart := none, stores := [] }
  else if pending.length = 0 then
    { retval := ERROR_OK, pendingAfter := [], stickyAfter := ERROR_OK,
      wrote := none, readIssued := false, readStart := none, stores := [] }
  else
    let buf := writeBuffer pending
    let read_count := readCountOf pending
    if tr.writeRet ≤ 0 then
      { retval := ERROR_FAIL, pendingAfter := [], stickyAfter := ERROR_OK,
        wrote := some buf, readIssued := false, readStart := none, stores := [] }
    else if tr.readRet ≤ 0 then
      { retval := ERROR_FAIL, pendingAfter := [], stickyAfter := ERROR_OK,
        wrote := some buf, readIssued := true, readStart := none, stores := [] }
    else
      let read_index := if (read_count : Int) < tr.readRet
        then (tr.readRet - (read_count : Int)).toNat else 0
      { retval := ERROR_OK, pendingAfter := [], stickyAfter := ERROR_OK,
        wrote := some buf, readIssued := true, readStart := some read_index,
        stores := decodeLoop tr.readBuf pending read_index }

/-- State of the global queue: `pending_transfers`/`pending_transfer_count`
and the sticky `queued_retval`. -/
structure QueueState where
  pending : List PendingTransfer
  queued_retval : Int
deriving Repr

/-- Result of `kitprog_swd_queue_cmd`: the new queue state plus the flush
outcome when an implicit flush ran. -/
structure EnqueueResult where
  state : QueueState
  flushed : Option RunResult

/-- Enqueue `kitprog_swd_queue_cmd cmd dst data`: if the queue is full, run it
(assigning the returned value back into `queued_retval`); then, unless an
error is pending, append the new entry.  The `buffer` field is assigned
only for read commands (for writes the C code leaves the field stale and
never reads it; we model it as `none`). -/
def kitprog_swd_queue_cmd (cmd : Nat) (dst : Option Nat) (data : Nat)
    (st : QueueState) (tr : Transport) : EnqueueResult :=
  let step : QueueState × Option RunResult :=
    if st.pending.length = pending_queue_len then
      let r := kitprog_swd_run_queue st.queued_retval st.pending tr
      (⟨r.pendingAfter, r.retval⟩, some r)
    else
      (st, none)
  let st' := step.1
  if st'.queued_retval ≠ ERROR_OK then
    { state := st', flushed := step.2 }
  else
    { state := { st' with pending := st'.pending ++
        [⟨cmd, data, if isReadCmd cmd then dst else none⟩] },
      flushed := step.2 }

/-! ### Spec-side serialization and decoding

These definitions follow the spec's description of the wire format; the
claims relate the imperative loops above to them. -/

/-- Spec-side bytes contributed by one entry: one header byte, then the
4 little-endian data bytes for a write command and nothing for a read. -/
def entryBytes (e : PendingTransfer) : List Nat :=
  ((e.cmd ||| SWD_CMD_START ||| SWD_CMD_PARK) &&& (0xff ^^^ SWD_CMD_STOP)) ::
    (if isReadCmd e.cmd then []
     else [e.data &&& 0xff, (e.data >>> 8) &&& 0xff,
           (e.data >>> 16) &&& 0xff, (e.data >>> 24) &&& 0xff])

/-- Request bytes occupied by one entry: 1 for a read, 5 for a write. -/
def reqSize (e : PendingTransfer) : Nat := if isReadCmd e.cmd then 1 else 5

/-- Response bytes reserved for one entry: 4 result bytes plus 1 ack byte
for a read, 1 ack byte for a write. -/
def respSize (e : PendingTransfer) : Nat := if isReadCmd e.cmd then 5 else 1

/-- Position of entry `i`'s response data relative to the start offset:
the sum of the response sizes of all earlier entries. -/
def respPos (q : List PendingTransfer) (i : Nat) : Nat :=
  ((q.take i).map respSize).sum

/-- Spec-side decode of a single entry: entry `i` of the queue (when
read-type with a non-null slot) receives the little-endian 32-bit value
at `off + respPos q i`. -/
def decodeSpecEntry (buf : Nat → Nat) (off : Nat) (q : List PendingTransfer)
    (i : Nat) : Option (Nat × Nat) :=
  let e := q.getD i ⟨0, 0, none⟩
  if isReadCmd e.cmd then
    e.buffer.map fun slot => (slot, le32 buf (off + respPos q i))
  else
    none

/-- Spec-side decode of the whole queue: walk the entries in enqueue
order, collecting the stores described by `decodeSpecEntry`. -/
def decodeSpec (buf : Nat → Nat) (off : Nat) (q : List PendingTransfer) :
    List (Nat × Nat) :=
  (List.range q.length).filterMap (decodeSpecEntry buf off q)

/-- Spec-side garbage offset: skip `returned − expected` leading bytes
when more bytes came back than logically expected, else start at 0. -/
def garbageOffset (returned : Int) (expected : Nat) : Nat :=
  if (expected : Int) < returned then (returned - (expected : Int)).toNat else 0

/-! ### Acquisition sequence in `kitprog_init`

`kitprog_acquire_psoc` and `kitprog_get_status` are single control
transfers whose success/failure we model with per-attempt oracles. -/

def DEVICE_PSOC4 : Nat := 0x00
def DEVICE_UNKNOWN : Nat := 0x01
def DEVICE_PSOC5 : Nat := 0x03

def ACQUIRE_MODE_RESET : Nat := 0x00

/-- The fixed order of device types attempted by `kitprog_init`. -/
def deviceOrder : List Nat := [DEVICE_PSOC4, DEVICE_UNKNOWN, DEVICE_PSOC5]

/-- The arguments of the `i`-th `kitprog_acquire_psoc` call:
`(psoc_type, acquire_mode, max_attempts)`. -/
def acquireAttempt (i : Nat) : Nat × Nat × Nat :=
  (deviceOrder.getD i 0, ACQUIRE_MODE_RESET, 3)

/-- Trace of the acquisition phase of `kitprog_init`. -/
structure AcquireTrace where
  retval : Int
  attempts : List (Nat × Nat × Nat)
  statusQueries : Nat
  noDeviceMsg : Bool
deriving Repr, DecidableEq

/-- The acquire loop of `kitprog_init` (the `do { ... } while (0)` block):
try PSoC4, then UNKNOWN, then PSoC5, each with reset-mode acquisition and
`max_attempts = 3`, querying status after each successful acquire; stop at
the first OK status; if the third status also fails, log "No PSoC devices
found" and fail.  `acqOk i` / `statusOk i` give the outcome of the `i`-th
acquire / status control exchange. -/
def kitprog_init_acquire (acqOk statusOk : Nat → Bool) : AcquireTrace :=
  if ¬ acqOk 0 then
    ⟨ERROR_FAIL, [acquireAttempt 0], 0, false⟩
  else if statusOk 0 then
    ⟨ERROR_OK, [acquireAttempt 0], 1, false⟩
  else if ¬ acqOk 1 then
    ⟨ERROR_FAIL, [acquireAttempt 0, acquireAttempt 1], 1, false⟩
  else if statusOk 1 then
    ⟨ERROR_OK, [acquireAttempt 0, acquireAttempt 1], 2, false⟩
  else if ¬ acqOk 2 then
    ⟨ERROR_FAIL, [acquireAttempt 0, acquireAttempt 1, acquireAttempt 2], 2, false⟩
  else if statusOk 2 then
    ⟨ERROR_OK, [acquireAttempt 0, acquireAttempt 1, acquireAttempt 2], 3, false⟩
  else
    ⟨ERROR_FAIL, [acquireAttempt 0, acquireAttempt 1, acquireAttempt 2], 3, true⟩

/-! ### PSoC5 flash driver (`src/flash/nor/psoc5.c`) -/

def PSOC5_SPC_CPU_DATA : Nat := 0x40004720
def PSOC5_SPC_STATUS : Nat := 0x40004722
def PSOC5_DEVICE_ID : Nat := 0x4008001c

def PSOC5_SPC_KEY1 : Nat := 0xb6
def PSOC5_SPC_KEY2 : Nat := 0xd3

def PSOC5_SPC_IDLE : Nat := 1 <<< 1

def PSOC5_CMD_ERASE_ALL : Nat := 0x09
def PSOC5_CMD_PROGRAM_ROW : Nat := 0x07

/-- One immutable device-table record (`struct psoc5_chip_details`). -/
structure Psoc5ChipDetails where
  id : Nat
  type : String
  package : String
  flash_size_in_kb : Nat
deriving Repr, DecidableEq

set_option maxHeartbeats 1000000 in
/-- The static `psoc5_devices[]` table. -/
def psoc5_devices : List Psoc5ChipDetails := [
  ⟨0x2e101069, "CY8C5666AXI-LP001", "TQFP-100", 64⟩,
  ⟨0x2e102069, "CY8C5466AXI-LP002", "TQFP-100", 64⟩,
  ⟨0x2e103069, "CY8C5467LTI-LP003", "QFN-68", 128⟩,
  ⟨0x2e104069, "CY8C5666AXI-LP004", "TQFP-100", 64⟩,
  ⟨0x2e105069, "CY8C5666LTI-LP005", "QFN-68", 64⟩,
  ⟨0x2e106069, "CY8C5667AXI-LP006", "TQFP-100", 128⟩,
  ⟨0x2e107069, "CY8C5687LTI-LP007", "QFN-68", 256⟩,
  ⟨0x2e108069, "CY8C5667LTI-LP008", "QFN-68", 128⟩,
  ⟨0x2e109069, "CY8C5667LTI-LP009", "QFN-68", 128⟩,
  ⟨0x2e10a069, "CY8C5668AXI-LP010", "TQFP-100", 256⟩,
  ⟨0x2e10b069, "CY8C5687AXI-LP011", "TQFP-100", 256⟩,
  ⟨0x2e10c069, "CY8C5687LTI-LP012", "QFN-68", 256⟩,
  ⟨0x2e10d069, "CY8C5668AXI-LP013", "TQFP-100", 256⟩,
  ⟨0x2e10e069, "CY8C5668LTI-LP014", "QFN-68", 256⟩,
  ⟨0x2e10f069, "CY8C5688AXI-LP015", "TQFP-100", 256⟩,
  ⟨0x2e110069, "CY8C5688AXI-LP016", "TQFP-100", 256⟩,
  ⟨0x2e111069, "CY8C5688AXI-LP017", "TQFP-100", 256⟩,
  ⟨0x2e112069, "CY8C5887AXI-LP018", "TQFP-100", 256⟩,
  ⟨0x2e113069, "CY8C5887AXI-LP019", "TQFP-100", 256⟩,
  ⟨0x2e114069, "CY8C5866AXI-LP020", "TQFP-100", 64⟩,
  ⟨0x2e115069, "CY8C5866AXI-LP021", "TQFP-100", 64⟩,
  ⟨0x2e116069, "CY8C5866LTI-LP022", "QFN-68", 64⟩,
  ⟨0x2e117069, "CY8C5867AXI-LP023", "TQFP-100", 128⟩,
  ⟨0x2e118069, "CY8C5867AXI-LP024", "TQFP-100", 128⟩,
  ⟨0x2e119069, "CY8C5867LTI-LP025", "QFN-68", 128⟩,
  ⟨0x2e11a069, "CY8C5468LTI-LP026", "QFN-68", 256⟩,
  ⟨0x2e11b069, "CY8C5686LTI-LP027", "QFN-68", 256⟩,
  ⟨0x2e11c069, "CY8C5867LTI-LP028", "QFN-68", 128⟩,
  ⟨0x2e11d069, "CY8C5266LTI-LP029", "QFN-68", 64⟩,
  ⟨0x2e11e069, "CY8C5268LTI-LP030", "QFN-68", 256⟩,
  ⟨0x2e11f069, "CY8C5868AXI-LP031", "TQFP-100", 256⟩,
  ⟨0x2e120069, "CY8C5868AXI-LP032", "TQFP-100", 256⟩,
  ⟨0x2e121069, "CY8C5266AXI-LP033", "TQFP-100", 64⟩,
  ⟨0x2e122069, "CY8C5668AXI-LP034", "TQFP-100", 256⟩,
  ⟨0x2e123069, "CY8C5868AXI-LP035", "TQFP-100", 256⟩,
  ⟨0x2e124069, "CY8C5868LTI-LP036", "QFN-68", 256⟩,
  ⟨0x2e125069, "CY8C5688LTI-LP037", "QFN-68", 256⟩,
  ⟨0x2e126069, "CY8C5868LTI-LP038", "QFN-68", 256⟩,
  ⟨0x2e127069, "CY8C5868LTI-LP039", "QFN-68", 256⟩,
  ⟨0x2e128069, "CY8C5667AXI-LP040", "TQFP-100", 128⟩,
  ⟨0x2e129069, "CY8C5667LTI-LP041", "QFN-68", 128⟩,
  ⟨0x2e12a069, "CY8C5468AXI-LP042", "TQFP-100", 256⟩,
  ⟨0x2e12b069, "CY8C5465AXI-LP043", "TQFP-100", 32⟩,
  ⟨0x2e12c069, "CY8C5488AXI-LP044", "TQFP-100", 256⟩,
  ⟨0x2e12f069, "CY8C5268AXI-LP047", "TQFP-100", 256⟩,
  ⟨0x2e132069, "CY8C5265LTI-LP050", "QFN-68", 32⟩,
  ⟨0x2e133069, "CY8C5267AXI-LP051", "TQFP-100", 128⟩,
  ⟨0x2e134069, "CY8C5688LTI-LP052", "QFN-68", 256⟩,
  ⟨0x2e137069, "CY8C5288LTI-LP055", "QFN-68", 256⟩,
  ⟨0x2e138069, "CY8C5265AXI-LP056", "TQFP-100", 32⟩,
  ⟨0x2e139069, "CY8C5888AXI-LP057", "TQFP-100", 256⟩,
  ⟨0x2e13a069, "CY8C5265LTI-LP058", "QFN-68", 32⟩,
  ⟨0x2e13b069, "CY8C5888AXI-LP059", "TQFP-100", 256⟩,
  ⟨0x2e13c069, "CY8C5888AXI-LP060", "TQFP-100", 256⟩,
  ⟨0x2e13d069, "CY8C5888AXI-LP061", "TQFP-100", 256⟩,
  ⟨0x2e13e069, "CY8C5886AXI-LP062", "TQFP-100", 256⟩,
  ⟨0x2e13f069, "CY8C5686AXI-LP063", "TQFP-100", 256⟩,
  ⟨0x2e140069, "CY8C5686AXI-LP064", "TQFP-100", 256⟩,
  ⟨0x2e141069, "CY8C5886AXI-LP065", "TQFP-100", 256⟩,
  ⟨0x2e147069, "CY8C5488LTI-LP071", "QFN-68", 256⟩,
  ⟨0x2e148069, "CY8C5466LTI-LP072", "QFN-68", 64⟩,
  ⟨0x2e149069, "CY8C5288AXI-LP073", "TQFP-100", 256⟩,
  ⟨0x2e14e069, "CY8C5887LTI-LP078", "QFN-68", 256⟩,
  ⟨0x2e14f069, "CY8C5887LTI-LP079", "QFN-68", 256⟩,
  ⟨0x2e152069, "CY8C5265AXI-LP082", "TQFP-100", 32⟩,
  ⟨0x2e155069, "CY8C5466LTI-LP085", "QFN-68", 64⟩,
  ⟨0x2e156069, "CY8C5688LTI-LP086", "QFN-68", 256⟩,
  ⟨0x2e159069, "CY8C5267LTI-LP089", "QFN-68", 128⟩,
  ⟨0x2e15a069, "CY8C5288LTI-LP090", "QFN-68", 256⟩,
  ⟨0x2e15d069, "CY8C5488LTI-LP093", "QFN-68", 256⟩,
  ⟨0x2e15f069, "CY8C5287AXI-LP095", "TQFP-100", 256⟩,
  ⟨0x2e160069, "CY8C5888AXI-LP096", "TQFP-100", 256⟩,
  ⟨0x2e161069, "CY8C5888LTI-LP097", "QFN-68", 256⟩,
  ⟨0x2e163069, "CY8C5688AXI-LP099", "TQFP-100", 256⟩,
  ⟨0x2e168069, "CY8C5465LTI-LP104", "QFN-68", 32⟩,
  ⟨0x2e16a069, "CY8C5468AXI-LP106", "TQFP-100", 256⟩,
  ⟨0x2e16b069, "CY8C5466AXI-LP107", "TQFP-100", 64⟩,
  ⟨0x2e16c069, "CY8C5467AXI-LP108", "TQFP-100", 128⟩,
  ⟨0x2e171069, "CY8C5888LTI-LP113", "QFN-68", 256⟩,
  ⟨0x2e172069, "CY8C5888LTI-LP114", "QFN-68", 256⟩,
  ⟨0x2e173069, "CY8C5888LTI-LP115", "QFN-68", 256⟩,
  ⟨0x2e178069, "CY8C5488AXI-LP120", "TQFP-100", 256⟩,
  ⟨0x2e184069, "CY8C5266AXI-LP132", "TQFP-100", 64⟩,
  ⟨0x2e196069, "CY8C5266LTI-LP150", "QFN-68", 64⟩,
  ⟨0x2e1d2069, "CY8C5888FNI-LP210", "WLCSP-99", 256⟩,
  ⟨0x2e1d3069, "CY8C5688FNI-LP211", "WLCSP-99", 256⟩,
  ⟨0x2e1d4069, "CY8C5488FNI-LP212", "WLCSP-99", 256⟩,
  ⟨0x2e1d5069, "CY8C5288FNI-LP213", "WLCSP-99", 256⟩,
  ⟨0x2e1d6069, "CY8C5888FNI-LP214", "WLCSP-99", 256⟩]

/-- Lookup `psoc5_details_by_id`: linear scan of `psoc5_devices`, first record
whose `id` equals the argument wins; `none` ("unknown device") when no
record matches. -/
def psoc5_details_by_id (silicon_id : Nat) : Option Psoc5ChipDetails :=
  psoc5_devices.find? fun p => p.id == silicon_id

/-- Target-side oracle for `psoc5_probe`: target halted state, the result
of the `PSOC5_DEVICE_ID` read and the silicon ID it yields.  (The dummy
`PSOC5_SPC_CPU_DATA` read's result is discarded by the code.) -/
structure ProbeEnv where
  halted : Bool
  idReadRet : Int
  siliconId : Nat

/-- One `struct flash_sector` as rebuilt by `psoc5_probe`. -/
structure FlashSector where
  offset : Nat
  size : Nat
  is_erased : Int
  is_protected : Int
deriving Repr, DecidableEq

/-- The bank and driver state produced by a successful `psoc5_probe`. -/
structure ProbeOut where
  flash_size_in_kb : Nat
  details : Option Psoc5ChipDetails
  mismatchLogged : Bool
  row_size : Nat
  silicon_id : Nat
  base : Nat
  size : Nat
  num_sectors : Nat
  sectors : List FlashSector
  probed : Bool
deriving Repr

/-- Outcome of `psoc5_probe`: an error return, a failed `assert`
(process abort in C), or success. -/
inductive ProbeResult where
  | err (code : Int)
  | assertViolation
  | ok (out : ProbeOut)
deriving Repr

/-- Probe `psoc5_probe`.  `user_bank_size` is `psoc5_info->user_bank_size`
(the `<size>` argument of the `flash bank` command); `max_flash_size_in_kb`
models the local variable of that name, which the C code leaves
uninitialized and reads only in the (unreachable) size-invalid branch.

Faithful structure: `flash_size_in_kb` starts at 256, so the branch
adopting `details->flash_size_in_kb` (guarded by `flash_size_in_kb == 0`)
can never be taken; a differing record size only logs
"Flash size mismatch". -/
def psoc5_probe (user_bank_size : Nat) (max_flash_size_in_kb : Nat)
    (env : ProbeEnv) : ProbeResult :=
  if ¬ env.halted then .err ERROR_TARGET_NOT_HALTED
  else if env.idReadRet ≠ ERROR_OK then .err env.idReadRet
  else
    let flash_size_in_kb : Nat := 256
    let row_size : Nat := 256
    let base_address : Nat := 0
    let details := psoc5_details_by_id env.siliconId
    let sized : Nat × Bool :=
      match details with
      | some d =>
        if flash_size_in_kb = 0 then (d.flash_size_in_kb, false)
        else if flash_size_in_kb ≠ d.flash_size_in_kb then (flash_size_in_kb, true)
        else (flash_size_in_kb, false)
      | none => (flash_size_in_kb, false)
    let flash_size_in_kb := sized.1
    let flash_size_in_kb :=
      if flash_size_in_kb = 0xffff ∨ flash_size_in_kb = 0 then max_flash_size_in_kb
      else flash_size_in_kb
    let flash_size_in_kb :=
      if user_bank_size ≠ 0 then user_bank_size / 1024 else flash_size_in_kb
    if flash_size_in_kb = 0xffff then .assertViolation
    else
      let num_rows := flash_size_in_kb * 1024 / row_size
      if num_rows = 0 then .assertViolation
      else
        .ok { flash_size_in_kb := flash_size_in_kb, details := details,
              mismatchLogged := sized.2, row_size := row_size,
              silicon_id := env.siliconId, base := base_address,
              size := num_rows * row_size, num_sectors := num_rows,
              sectors := (List.range num_rows).map fun i =>
                ⟨i * row_size, row_size, -1, 1⟩,
              probed := true }

/-! ### SPC command codec -/

/-- The argument loop of `psoc5_spc_command`: write each argument byte,
aborting at the first failing write.  `wr i` is the outcome of the `i`-th
`target_write_u8` of the whole command sequence; the returned list holds
the `(address, byte)` writes actually issued (a failing write is issued,
the bytes after it are not). -/
def spcArgsLoop (wr : Nat → Int) : List Nat → Nat → Int × List (Nat × Nat)
  | [], _ => (ERROR_OK, [])
  | a :: rest, i =>
    let r := wr i
    if r ≠ ERROR_OK then (r, [(PSOC5_SPC_CPU_DATA, a)])
    else
      let tail := spcArgsLoop wr rest (i + 1)
      (tail.1, (PSOC5_SPC_CPU_DATA, a) :: tail.2)

/-- The codec `psoc5_spc_command target cmd args`: write `PSOC5_SPC_KEY1`, then
`PSOC5_SPC_KEY2 + cmd` (truncated to a byte by `target_write_u8`'s
`uint8_t` parameter), then `cmd`, then each argument byte, to
`PSOC5_SPC_CPU_DATA`, each write checked and the first failure aborting
the sequence.  Returns the final `retval` and the issued writes. -/
def psoc5_spc_command (cmd : Nat) (args : List Nat) (wr : Nat → Int) :
    Int × List (Nat × Nat) :=
  let w0 : Nat × Nat := (PSOC5_SPC_CPU_DATA, PSOC5_SPC_KEY1)
  let w1 : Nat × Nat := (PSOC5_SPC_CPU_DATA, (PSOC5_SPC_KEY2 + cmd) % 256)
  let w2 : Nat × Nat := (PSOC5_SPC_CPU_DATA, cmd)
  let r0 := wr 0
  if r0 ≠ ERROR_OK then (r0, [w0])
  else
    let r1 := wr 1
    if r1 ≠ ERROR_OK then (r1, [w0, w1])
    else
      let r2 := wr 2
      if r2 ≠ ERROR_OK then (r2, [w0, w1, w2])
      else
        let tail := spcArgsLoop wr args 3
        (tail.1, w0 :: w1 :: w2 :: tail.2)

/-- Spec-side write plan of an SPC command: key byte 1, key byte 2 plus
the command code, the command code, then the argument bytes — all to the
SPC data register. -/
def spcPlannedWrites (cmd : Nat) (args : List Nat) : List (Nat × Nat) :=
  (PSOC5_SPC_CPU_DATA, PSOC5_SPC_KEY1) ::
  (PSOC5_SPC_CPU_DATA, (PSOC5_SPC_KEY2 + cmd) % 256) ::
  (PSOC5_SPC_CPU_DATA, cmd) ::
  args.map fun a => (PSOC5_SPC_CPU_DATA, a)

/-! ### Mass erase -/

/-- The status-polling `do { ... } while` loop of `psoc5_mass_erase`,
with explicit fuel: `status i` is the byte the `i`-th
`target_read_u8(PSOC5_SPC_STATUS)` stores (its error result is ignored by
the C code).  Returns the number of reads performed when the idle bit
appears within `fuel` reads, `none` otherwise (the C loop would still be
running). -/
def pollLoop (status : Nat → Nat) : Nat → Nat → Option Nat
  | 0, _ => none
  | fuel + 1, i =>
    if status i &&& PSOC5_SPC_IDLE ≠ 0 then some (i + 1)
    else pollLoop status fuel (i + 1)

/-- Target-side oracle for `psoc5_mass_erase`. -/
structure EraseEnv where
  halted : Bool
  spcWr : Nat → Int
  status : Nat → Nat

/-- Mass erase `psoc5_mass_erase`, over the sectors' `is_erased` fields.  Returns
`(retval, is_erased fields after the call, number of status polls)`;
`none` when the poll loop exceeds the observation fuel. -/
def psoc5_mass_erase (env : EraseEnv) (sectors : List Int) (fuel : Nat) :
    Option (Int × List Int × Nat) :=
  if ¬ env.halted then some (ERROR_TARGET_NOT_HALTED, sectors, 0)
  else
    let r := psoc5_spc_command PSOC5_CMD_ERASE_ALL [] env.spcWr
    if r.1 ≠ ERROR_OK then some (r.1, sectors, 0)
    else
      match pollLoop env.status fuel 0 with
      | none => none
      | some n => some (ERROR_OK, sectors.map fun _ => 1, n)

/-- Flash size (in kb) of a successful probe outcome. -/
def probeFlashKb : ProbeResult → Option Nat
  | .ok out => some out.flash_size_in_kb
  | _ => none

/-- The bank state produced by `psoc5_probe` with a 1 KiB user override
on an unknown silicon ID (a concrete probe outcome used to exercise the
probe theorems). -/
def probeOutSample : ProbeOut :=
  { flash_size_in_kb := 1, details := none, mismatchLogged := false,
    row_size := 256, silicon_id := 0, base := 0, size := 1024,
    num_sectors := 4,
    sectors := [⟨0, 256, -1, 1⟩, ⟨256, 256, -1, 1⟩, ⟨512, 256, -1, 1⟩,
                ⟨768, 256, -1, 1⟩],
    probed := true }

/-! ### Helper lemmas -/

lemma serializeStep_eq (acc : List Nat) (e : PendingTransfer) :
    serializeStep acc e = acc ++ entryBytes e := by
  unfold serializeStep entryBytes
  by_cases h : isReadCmd e.cmd <;> simp [h]

lemma foldl_serialize (q : List PendingTransfer) :
    ∀ acc : List Nat, q.foldl serializeStep acc = acc ++ q.flatMap entryBytes := by
  induction q with
  | nil => intro acc; simp
  | cons e rest ih =>
    intro acc
    simp only [List.foldl_cons, serializeStep_eq, ih, List.flatMap_cons, List.append_assoc]

lemma writeBuffer_eq (q : List PendingTransfer) :
    writeBuffer q = q.flatMap entryBytes := by
  simpa using foldl_serialize q []

lemma entryBytes_length (e : PendingTransfer) :
    (entryBytes e).length = reqSize e := by
  unfold entryBytes reqSize
  by_cases h : isReadCmd e.cmd <;> simp [h]

lemma flatMap_entryBytes_length (q : List PendingTransfer) :
    (q.flatMap entryBytes).length = (q.map reqSize).sum := by
  induction q with
  | nil => simp
  | cons e rest ih => simp [List.flatMap_cons, entryBytes_length, ih]

lemma foldl_readCount (q : List PendingTransfer) :
    ∀ acc : Nat,
      q.foldl (fun n e => n + 1 + (if isReadCmd e.cmd then 4 else 0)) acc =
        acc + (q.map respSize).sum := by
  induction q with
  | nil => intro acc; simp
  | cons e rest ih =>
    intro acc
    simp only [List.foldl_cons, ih, List.map_cons, List.sum_cons]
    unfold respSize
    by_cases h : isReadCmd e.cmd <;> simp [h] <;> omega

lemma readCountOf_eq (q : List PendingTransfer) :
    readCountOf q = (q.map respSize).sum := by
  simpa using foldl_readCount q 0

lemma respPos_cons_succ (e : PendingTransfer) (rest : List PendingTransfer) (i : Nat) :
    respPos (e :: rest) (i + 1) = respSize e + respPos rest i := by
  simp [respPos, List.take_succ_cons]

lemma decodeSpec_nil (buf : Nat → Nat) (off : Nat) : decodeSpec buf off [] = [] := by
  simp [decodeSpec]

lemma decodeSpecEntry_cons_succ (buf : Nat → Nat) (off : Nat) (e : PendingTransfer)
    (rest : List PendingTransfer) (i : Nat) :
    decodeSpecEntry buf off (e :: rest) (i + 1) =
      decodeSpecEntry buf (off + respSize e) rest i := by
  simp [decodeSpecEntry, respPos_cons_succ, Nat.add_assoc]

lemma decodeSpec_cons (buf : Nat → Nat) (off : Nat) (e : PendingTransfer)
    (rest : List PendingTransfer) :
    decodeSpec buf off (e :: rest) =
      (if isReadCmd e.cmd then
        (e.buffer.map fun slot => (slot, le32 buf off)).toList
       else []) ++ decodeSpec buf (off + respSize e) rest := by
  unfold decodeSpec
  rw [List.length_cons, List.range_succ_eq_map, List.filterMap_cons, List.filterMap_map]
  have htail : decodeSpecEntry buf off (e :: rest) ∘ Nat.succ =
      decodeSpecEntry buf (off + respSize e) rest := by
    funext i
    exact decodeSpecEntry_cons_succ buf off e rest i
  rw [htail]
  by_cases h : isReadCmd e.cmd <;> cases hb : e.buffer <;>
    simp [decodeSpecEntry, respPos, h, hb]

lemma run_queue_pendingAfter (qr : Int) (q : List PendingTransfer) (tr : Transport) :
    (kitprog_swd_run_queue qr q tr).pendingAfter = [] := by
  unfold kitprog_swd_run_queue
  repeat (first | rfl | split)

lemma run_queue_stickyAfter (qr : Int) (q : List PendingTransfer) (tr : Transport) :
    (kitprog_swd_run_queue qr q tr).stickyAfter = ERROR_OK := by
  unfold kitprog_swd_run_queue
  repeat (first | rfl | split)

lemma run_queue_stores_or_ok (qr : Int) (q : List PendingTransfer) (tr : Transport) :
    (kitprog_swd_run_queue qr q tr).stores = [] ∨
      (kitprog_swd_run_queue qr q tr).retval = ERROR_OK := by
  unfold kitprog_swd_run_queue
  repeat (first | (left ; rfl) | (right ; rfl) | split)

lemma decodeLoop_eq_decodeSpec (buf : Nat → Nat) :
    ∀ (q : List PendingTransfer) (idx : Nat),
      decodeLoop buf q idx = decodeSpec buf idx q := by
  intro q
  induction q with
  | nil => intro idx; simp [decodeLoop, decodeSpec_nil]
  | cons e rest ih =>
    intro idx
    rw [decodeSpec_cons]
    unfold decodeLoop
    by_cases h : isReadCmd e.cmd
    · simp only [h, if_true, ih]
      have h5 : respSize e = 5 := by simp [respSize, h]
      rw [h5]
      cases e.buffer <;> simp [Option.toList]
    · simp only [h, if_false, ih]
      have h1 : respSize e = 1 := by simp [respSize, h]
      rw [h1]
      simp

lemma run_queue_sticky (e : Int) (he : e ≠ ERROR_OK) (q : List PendingTransfer)
    (tr : Transport) :
    kitprog_swd_run_queue e q tr = ⟨e, [], ERROR_OK, none, false, none, []⟩ := by
  simp only [kitprog_swd_run_queue, if_pos he]

lemma run_queue_empty (tr : Transport) :
    kitprog_swd_run_queue ERROR_OK [] tr = ⟨ERROR_OK, [], ERROR_OK, none, false, none, []⟩ := by
  have h0 : ¬ (ERROR_OK ≠ ERROR_OK) := fun h => h rfl
  simp only [kitprog_swd_run_queue, if_neg h0, List.length_nil]
  simp

lemma run_queue_write_fail (q : List PendingTransfer) (tr : Transport)
    (hne : q ≠ []) (hw : tr.writeRet ≤ 0) :
    kitprog_swd_run_queue ERROR_OK q tr =
      ⟨ERROR_FAIL, [], ERROR_OK, some (writeBuffer q), false, none, []⟩ := by
  have h0 : ¬ (ERROR_OK ≠ ERROR_OK) := fun h => h rfl
  have hlq : ¬ (q.length = 0) := fun h => hne (List.length_eq_zero.mp h)
  simp only [kitprog_swd_run_queue, if_neg h0, if_neg hlq, if_pos hw]

lemma run_queue_read_fail (q : List PendingTransfer) (tr : Transport)
    (hne : q ≠ []) (hw : 0 < tr.writeRet) (hr : tr.readRet ≤ 0) :
    kitprog_swd_run_queue ERROR_OK q tr =
      ⟨ERROR_FAIL, [], ERROR_OK, some (writeBuffer q), true, none, []⟩ := by
  have h0 : ¬ (ERROR_OK ≠ ERROR_OK) := fun h => h rfl
  have hlq : ¬ (q.length = 0) := fun h => hne (List.length_eq_zero.mp h)
  have hw' : ¬ (tr.writeRet ≤ 0) := not_le.mpr hw
  simp only [kitprog_swd_run_queue, if_neg h0, if_neg hlq, if_neg hw', if_pos hr]

lemma run_queue_success (q : List PendingTransfer) (tr : Transport)
    (hne : q ≠ []) (hw : 0 < tr.writeRet) (hr : 0 < tr.readRet) :
    kitprog_swd_run_queue ERROR_OK q tr =
      { retval := ERROR_OK, pendingAfter := [], stickyAfter := ERROR_OK,
        wrote := some (writeBuffer q), readIssued := true,
        readStart := some (garbageOffset tr.readRet (readCountOf q)),
        stores := decodeLoop tr.readBuf q (garbageOffset tr.readRet (readCountOf q)) } := by
  have h0 : ¬ (ERROR_OK ≠ ERROR_OK) := fun h => h rfl
  have hlq : ¬ (q.length = 0) := fun h => hne (List.length_eq_zero.mp h)
  have hw' : ¬ (tr.writeRet ≤ 0) := not_le.mpr hw
  have hr' : ¬ (tr.readRet ≤ 0) := not_le.mpr hr
  simp only [kitprog_swd_run_queue, garbageOffset, if_neg h0, if_neg hlq, if_neg hw',
    if_neg hr']

/-! ### Claim theorems: transaction queue -/

/-- C1: on a flushable queue (length at most the capacity, no sticky
error, both bulk transfers succeeding) the flush serializes the entries in
enqueue order — each entry one header byte `(cmd | START | PARK) & ~STOP`
followed by 4 little-endian data bytes for writes and nothing for reads —
issues one bulk write of exactly that many bytes, and decodes the response
by walking the entries in enqueue order: each read-type entry's 4-byte
little-endian result is stored into its non-null output slot, the cursor
advancing 4 bytes per read plus 1 ack byte per entry. -/
theorem kitprog_flush_serialize_decode (q : List PendingTransfer) (tr : Transport)
    (hlen : q.length ≤ pending_queue_len) (hne : q ≠ [])
    (hw : 0 < tr.writeRet) (hr : 0 < tr.readRet) :
    (kitprog_swd_run_queue ERROR_OK q tr).wrote = some (q.flatMap entryBytes) ∧
    (q.flatMap entryBytes).length = (q.map reqSize).sum ∧
    (kitprog_swd_run_queue ERROR_OK q tr).stores =
      decodeSpec tr.readBuf (garbageOffset tr.readRet ((q.map respSize).sum)) q := by
  rw [run_queue_success q tr hne hw hr]
  refine ⟨by rw [writeBuffer_eq], flatMap_entryBytes_length q, ?_⟩
  simp only [decodeLoop_eq_decodeSpec, readCountOf_eq]

/-- Witness for C1: one write (`cmd = 0x00`, data `0xAABBCCDD`) followed
by one read (`cmd = 0x04`, slot 7); the bulk write carries 6 bytes and the
read result is decoded little-endian past the garbage offset. -/
theorem kitprog_flush_serialize_decode_witness :
    (kitprog_swd_run_queue ERROR_OK
        [⟨0x00, 0xAABBCCDD, none⟩, ⟨0x04, 0, some 7⟩]
        ⟨6, 9, fun i => i + 1⟩).wrote =
      some (([⟨0x00, 0xAABBCCDD, none⟩, ⟨0x04, 0, some 7⟩] :
          List PendingTransfer).flatMap entryBytes) ∧
    (([⟨0x00, 0xAABBCCDD, none⟩, ⟨0x04, 0, some 7⟩] :
        List PendingTransfer).flatMap entryBytes).length =
      (([⟨0x00, 0xAABBCCDD, none⟩, ⟨0x04, 0, some 7⟩] :
        List PendingTransfer).map reqSize).sum ∧
    (kitprog_swd_run_queue ERROR_OK
        [⟨0x00, 0xAABBCCDD, none⟩, ⟨0x04, 0, some 7⟩]
        ⟨6, 9, fun i => i + 1⟩).stores =
      decodeSpec (fun i => i + 1)
        (garbageOffset 9 ((([⟨0x00, 0xAABBCCDD, none⟩, ⟨0x04, 0, some 7⟩] :
          List PendingTransfer).map respSize).sum))
        [⟨0x00, 0xAABBCCDD, none⟩, ⟨0x04, 0, some 7⟩] :=
  kitprog_flush_serialize_decode
    [⟨0x00, 0xAABBCCDD, none⟩, ⟨0x04, 0, some 7⟩]
    ⟨6, 9, fun i => i + 1⟩ (by decide) (by decide) (by decide) (by decide)

/-- C2: on a successful flush, if the bulk read returned strictly more
bytes than the expected response count (one ack byte per entry plus 4
result bytes per read) the decoder starts at offset
`returned − expected`, otherwise at offset 0; the stores are decoded from
that starting offset. -/
theorem kitprog_flush_garbage_offset (q : List PendingTransfer) (tr : Transport)
    (hne : q ≠ []) (hw : 0 < tr.writeRet) (hr : 0 < tr.readRet) :
    ((((q.map respSize).sum : Int) < tr.readRet →
      (kitprog_swd_run_queue ERROR_OK q tr).readStart =
        some ((tr.readRet - ((q.map respSize).sum : Int)).toNat)) ∧
     (tr.readRet ≤ ((q.map respSize).sum : Int) →
      (kitprog_swd_run_queue ERROR_OK q tr).readStart = some 0)) ∧
    (kitprog_swd_run_queue ERROR_OK q tr).stores =
      decodeSpec tr.readBuf (garbageOffset tr.readRet ((q.map respSize).sum)) q := by
  rw [run_queue_success q tr hne hw hr]
  refine ⟨⟨fun hlt => ?_, fun hle => ?_⟩, ?_⟩
  · simp only [garbageOffset, readCountOf_eq, if_pos hlt]
  · simp only [garbageOffset, readCountOf_eq, if_neg (not_lt.mpr hle)]
  · simp only [decodeLoop_eq_decodeSpec, readCountOf_eq]

/-- Witness for C2: a 6-byte expected response with a 9-byte bulk read
starts decoding at offset 3; with a 6-byte bulk read it starts at 0. -/
theorem kitprog_flush_garbage_offset_witness :
    (kitprog_swd_run_queue ERROR_OK [⟨0x04, 0, some 1⟩, ⟨0x00, 5, none⟩]
        ⟨6, 9, fun i => i⟩).readStart = some 3 ∧
    (kitprog_swd_run_queue ERROR_OK [⟨0x04, 0, some 1⟩, ⟨0x00, 5, none⟩]
        ⟨6, 6, fun i => i⟩).readStart = some 0 := by
  constructor
  · have h := kitprog_flush_garbage_offset [⟨0x04, 0, some 1⟩, ⟨0x00, 5, none⟩]
      ⟨6, 9, fun i => i⟩ (by decide) (by decide) (by decide)
    have := h.1.1 (by decide)
    simpa using this
  · have h := kitprog_flush_garbage_offset [⟨0x04, 0, some 1⟩, ⟨0x00, 5, none⟩]
      ⟨6, 6, fun i => i⟩ (by decide) (by decide) (by decide)
    have := h.1.2 (by decide)
    simpa using this

/-- C7: a flush with a sticky error set returns that error without any
bulk write or read; a flush of an empty queue (no pending error) performs
no transfers and returns success; a bulk-write or bulk-read failure aborts
before any decoding and is returned as the flush's result. -/
theorem kitprog_flush_error_paths (e : Int) (q : List PendingTransfer) (tr : Transport) :
    (e ≠ ERROR_OK →
      kitprog_swd_run_queue e q tr = ⟨e, [], ERROR_OK, none, false, none, []⟩) ∧
    (kitprog_swd_run_queue ERROR_OK [] tr =
      ⟨ERROR_OK, [], ERROR_OK, none, false, none, []⟩) ∧
    (q ≠ [] → tr.writeRet ≤ 0 →
      kitprog_swd_run_queue ERROR_OK q tr =
        ⟨ERROR_FAIL, [], ERROR_OK, some (writeBuffer q), false, none, []⟩) ∧
    (q ≠ [] → 0 < tr.writeRet → tr.readRet ≤ 0 →
      kitprog_swd_run_queue ERROR_OK q tr =
        ⟨ERROR_FAIL, [], ERROR_OK, some (writeBuffer q), true, none, []⟩) :=
  ⟨fun he => run_queue_sticky e he q tr,
   run_queue_empty tr,
   fun hne hw => run_queue_write_fail q tr hne hw,
   fun hne hw hr => run_queue_read_fail q tr hne hw hr⟩

/-- Witness for C7 at one concrete sticky error, queue and transport. -/
theorem kitprog_flush_error_paths_witness :
    kitprog_swd_run_queue ERROR_FAIL [⟨0x04, 0, some 1⟩] ⟨1, 1, fun _ => 0⟩ =
      ⟨ERROR_FAIL, [], ERROR_OK, none, false, none, []⟩ ∧
    kitprog_swd_run_queue ERROR_OK [] ⟨1, 1, fun _ => 0⟩ =
      ⟨ERROR_OK, [], ERROR_OK, none, false, none, []⟩ ∧
    kitprog_swd_run_queue ERROR_OK [⟨0x04, 0, some 1⟩] ⟨0, 1, fun _ => 0⟩ =
      ⟨ERROR_FAIL, [], ERROR_OK, some (writeBuffer [⟨0x04, 0, some 1⟩]), false, none, []⟩ ∧
    kitprog_swd_run_queue ERROR_OK [⟨0x04, 0, some 1⟩] ⟨1, 0, fun _ => 0⟩ =
      ⟨ERROR_FAIL, [], ERROR_OK, some (writeBuffer [⟨0x04, 0, some 1⟩]), true, none, []⟩ :=
  ⟨(kitprog_flush_error_paths ERROR_FAIL [⟨0x04, 0, some 1⟩] ⟨1, 1, fun _ => 0⟩).1
      (by decide),
   (kitprog_flush_error_paths ERROR_OK ([] : List PendingTransfer) ⟨1, 1, fun _ => 0⟩).2.1,
   (kitprog_flush_error_paths ERROR_OK [⟨0x04, 0, some 1⟩] ⟨0, 1, fun _ => 0⟩).2.2.1
      (by decide) (by decide),
   (kitprog_flush_error_paths ERROR_OK [⟨0x04, 0, some 1⟩] ⟨1, 0, fun _ => 0⟩).2.2.2
      (by decide) (by decide) (by decide)⟩

/-- C10: after every flush — sticky-error early return, success, or
mid-transfer failure — the pending count is zero and the sticky error is
reset to `ERROR_OK`; and a flush that did not return `ERROR_OK` performed
no decode, so no output slot was written. -/
theorem kitprog_flush_invariant (qr : Int) (q : List PendingTransfer) (tr : Transport) :
    (kitprog_swd_run_queue qr q tr).pendingAfter = [] ∧
    (kitprog_swd_run_queue qr q tr).stickyAfter = ERROR_OK ∧
    ((kitprog_swd_run_queue qr q tr).retval ≠ ERROR_OK →
      (kitprog_swd_run_queue qr q tr).stores = []) :=
  ⟨run_queue_pendingAfter qr q tr, run_queue_stickyAfter qr q tr,
   fun h => (run_queue_stores_or_ok qr q tr).resolve_right h⟩

/-- Witness for C10 at a failing flush (bulk write error). -/
theorem kitprog_flush_invariant_witness :
    (kitprog_swd_run_queue ERROR_OK [⟨0x04, 0, some 1⟩] ⟨0, 1, fun _ => 0⟩).pendingAfter
        = [] ∧
    (kitprog_swd_run_queue ERROR_OK [⟨0x04, 0, some 1⟩] ⟨0, 1, fun _ => 0⟩).stickyAfter
        = ERROR_OK ∧
    (kitprog_swd_run_queue ERROR_OK [⟨0x04, 0, some 1⟩] ⟨0, 1, fun _ => 0⟩).stores = [] :=
  ⟨(kitprog_flush_invariant ERROR_OK [⟨0x04, 0, some 1⟩] ⟨0, 1, fun _ => 0⟩).1,
   (kitprog_flush_invariant ERROR_OK [⟨0x04, 0, some 1⟩] ⟨0, 1, fun _ => 0⟩).2.1,
   (kitprog_flush_invariant ERROR_OK [⟨0x04, 0, some 1⟩] ⟨0, 1, fun _ => 0⟩).2.2
      (by decide)⟩

/-- C6: the queue capacity is `packet_size / 5`; enqueue on a queue
holding exactly capacity entries flushes first and appends the new entry
only when no error is pending afterwards; if the implicit flush fails, or
a sticky error is already set, the entry is silently dropped. -/
theorem kitprog_enqueue_capacity (cmd : Nat) (dst : Option Nat) (data : Nat)
    (st : QueueState) (tr : Transport) :
    pending_queue_len = SWD_MAX_BUFFER_LENGTH / 5 ∧
    (st.pending.length = pending_queue_len →
      (kitprog_swd_queue_cmd cmd dst data st tr).flushed =
        some (kitprog_swd_run_queue st.queued_retval st.pending tr) ∧
      (kitprog_swd_queue_cmd cmd dst data st tr).state.pending =
        (if (kitprog_swd_run_queue st.queued_retval st.pending tr).retval = ERROR_OK
         then [⟨cmd, data, if isReadCmd cmd then dst else none⟩] else []) ∧
      (kitprog_swd_queue_cmd cmd dst data st tr).state.queued_retval =
        (kitprog_swd_run_queue st.queued_retval st.pending tr).retval) ∧
    (st.pending.length ≠ pending_queue_len → st.queued_retval ≠ ERROR_OK →
      (kitprog_swd_queue_cmd cmd dst data st tr).state = st ∧
      (kitprog_swd_queue_cmd cmd dst data st tr).flushed = none) ∧
    (st.pending.length ≠ pending_queue_len → st.queued_retval = ERROR_OK →
      (kitprog_swd_queue_cmd cmd dst data st tr).state.pending =
        st.pending ++ [⟨cmd, data, if isReadCmd cmd then dst else none⟩] ∧
      (kitprog_swd_queue_cmd cmd dst data st tr).state.queued_retval = ERROR_OK ∧
      (kitprog_swd_queue_cmd cmd dst data st tr).flushed = none) := by
  refine ⟨rfl, fun hfull => ?_, fun hnot herr => ?_, fun hnot hok => ?_⟩
  · simp only [kitprog_swd_queue_cmd, if_pos hfull,
      run_queue_pendingAfter st.queued_retval st.pending tr]
    by_cases hres : (kitprog_swd_run_queue st.queued_retval st.pending tr).retval = ERROR_OK
    · simp [hres]
    · simp [hres]
  · simp only [kitprog_swd_queue_cmd, if_neg hnot, if_pos herr]
    simp
  · have h : ¬ st.queued_retval ≠ ERROR_OK := fun h => h hok
    simp only [kitprog_swd_queue_cmd, if_neg hnot, if_neg h]
    simp [hok]

/-- Witness for C6: a full queue of 102 write entries whose implicit
flush fails (bulk write error), so the new entry is dropped; and a
non-full queue with no pending error, where the entry is appended. -/
theorem kitprog_enqueue_capacity_witness :
    (kitprog_swd_queue_cmd 0x04 (some 9) 0
        ⟨List.replicate 102 ⟨0x00, 0, none⟩, ERROR_OK⟩ ⟨0, 1, fun _ => 0⟩).state.pending
      = [] ∧
    (kitprog_swd_queue_cmd 0x04 (some 9) 0
        ⟨[], ERROR_OK⟩ ⟨1, 1, fun _ => 0⟩).state.pending
      = [⟨0x04, 0, some 9⟩] := by
  constructor
  · have h := (kitprog_enqueue_capacity 0x04 (some 9) 0
        ⟨List.replicate 102 ⟨0x00, 0, none⟩, ERROR_OK⟩ ⟨0, 1, fun _ => 0⟩).2.1
        (by decide)
    rw [h.2.1]
    decide
  · have h := (kitprog_enqueue_capacity 0x04 (some 9) 0
        ⟨[], ERROR_OK⟩ ⟨1, 1, fun _ => 0⟩).2.2.2 (by decide) (by decide)
    simpa using h.1

/-- C5: initialization attempts acquisition in the fixed order PSoC4,
unknown, PSoC5 — the attempted list is always a prefix of that order of at
most three attempts, each with reset-mode acquisition and
`max_attempts = 3`; it succeeds exactly when the last status query issued
succeeded, every status query before the last failed (so it stops at the
first success and never tries a later type), the overall result is
failure exactly when no issued status query succeeded, and the
"No PSoC devices found" report happens exactly when all three status
queries ran and failed. -/
theorem kitprog_init_acquire_spec (acqOk statusOk : Nat → Bool) :
    (∃ k, k ≤ 3 ∧ (kitprog_init_acquire acqOk statusOk).attempts =
        (List.range k).map acquireAttempt) ∧
    (kitprog_init_acquire acqOk statusOk).attempts.length ≤ 3 ∧
    (∀ a ∈ (kitprog_init_acquire acqOk statusOk).attempts,
        a.2.1 = ACQUIRE_MODE_RESET ∧ a.2.2 = 3) ∧
    ((kitprog_init_acquire acqOk statusOk).retval = ERROR_OK ↔
      0 < (kitprog_init_acquire acqOk statusOk).statusQueries ∧
      statusOk ((kitprog_init_acquire acqOk statusOk).statusQueries - 1) = true) ∧
    ((kitprog_init_acquire acqOk statusOk).retval = ERROR_OK →
      (kitprog_init_acquire acqOk statusOk).attempts.length =
        (kitprog_init_acquire acqOk statusOk).statusQueries) ∧
    (∀ j < (kitprog_init_acquire acqOk statusOk).statusQueries - 1,
        statusOk j = false) ∧
    ((kitprog_init_acquire acqOk statusOk).retval ≠ ERROR_OK ↔
      ∀ j < (kitprog_init_acquire acqOk statusOk).statusQueries,
        statusOk j = false) ∧
    ((kitprog_init_acquire acqOk statusOk).noDeviceMsg = true ↔
      (kitprog_init_acquire acqOk statusOk).statusQueries = 3 ∧
      ∀ j < 3, statusOk j = false) := by
  cases h0 : acqOk 0 <;> cases hs0 : statusOk 0 <;> cases h1 : acqOk 1 <;>
    cases hs1 : statusOk 1 <;> cases h2 : acqOk 2 <;> cases hs2 : statusOk 2 <;>
    simp only [kitprog_init_acquire, h0, hs0, h1, hs1, h2, hs2, Bool.not_true,
      Bool.not_false, not_true, not_false_iff, if_true, if_false, ite_true,
      ite_false, Bool.false_eq_true, not_false_eq_true, eq_self_iff_true] <;>
    refine ⟨?_, ?_, ?_, ?_, ?_, ?_, ?_, ?_⟩ <;>
    first
      | exact ⟨0, by omega, rfl⟩
      | exact ⟨1, by omega, rfl⟩
      | exact ⟨2, by omega, rfl⟩
      | exact ⟨3, by omega, rfl⟩
      | decide
      | (intro j hj ; interval_cases j <;> simp_all [ERROR_OK, ERROR_FAIL])
      | ((refine ⟨0, ?_, ?_⟩ <;> first | omega | simp_all) ; done)
      | ((refine ⟨1, ?_, ?_⟩ <;> first | omega | simp_all) ; done)
      | ((refine ⟨2, ?_, ?_⟩ <;> first | omega | simp_all) ; done)
      | simp_all [ERROR_OK, ERROR_FAIL]
      | (refine ⟨fun h => ?_, fun h => ?_⟩ <;>
          first
            | (intro j hj ; interval_cases j <;> simp_all [ERROR_OK, ERROR_FAIL])
            | ((refine ⟨0, ?_, ?_⟩ <;> first | omega | simp_all) ; done)
            | ((refine ⟨1, ?_, ?_⟩ <;> first | omega | simp_all) ; done)
            | ((refine ⟨2, ?_, ?_⟩ <;> first | omega | simp_all) ; done)
            | exact absurd (h 0 (by omega)) (by simp_all)
            | exact absurd (h 1 (by omega)) (by simp_all)
            | exact absurd (h 2 (by omega)) (by simp_all)
            | exact absurd (h.2 0 (by omega)) (by simp_all)
            | exact absurd (h.2 1 (by omega)) (by simp_all)
            | exact absurd (h.2 2 (by omega)) (by simp_all)
            | simp_all [ERROR_OK, ERROR_FAIL])
  all_goals first
    | ((intro j hj ; interval_cases j <;> simp_all) ; done)
    | ((refine ⟨0, ?_, ?_⟩ <;> first | omega | simp_all) ; done)
    | ((refine ⟨1, ?_, ?_⟩ <;> first | omega | simp_all) ; done)
    | ((refine ⟨2, ?_, ?_⟩ <;> first | omega | simp_all) ; done)

/-- Witness for C5: with every acquire succeeding and only the second
status query succeeding, the loop stops after the second device type with
overall success. -/
theorem kitprog_init_acquire_witness :
    ((kitprog_init_acquire (fun _ => true) (fun i => i == 1)).retval = ERROR_OK ↔
      0 < (kitprog_init_acquire (fun _ => true) (fun i => i == 1)).statusQueries ∧
      (fun i : Nat => i == 1)
        ((kitprog_init_acquire (fun _ => true) (fun i => i == 1)).statusQueries - 1)
          = true) ∧
    (kitprog_init_acquire (fun _ => true) (fun i => i == 1)).retval = ERROR_OK :=
  ⟨(kitprog_init_acquire_spec (fun _ => true) (fun i => i == 1)).2.2.2.1,
   ((kitprog_init_acquire_spec (fun _ => true) (fun i => i == 1)).2.2.2.1).mpr
     (by decide)⟩

lemma spcArgsLoop_all_ok (wr : Nat → Int) :
    ∀ (args : List Nat) (i : Nat),
      (∀ j, i ≤ j → j < i + args.length → wr j = ERROR_OK) →
      spcArgsLoop wr args i =
        (ERROR_OK, args.map fun a => (PSOC5_SPC_CPU_DATA, a)) := by
  intro args
  induction args with
  | nil => intro i _; rfl
  | cons a rest ih =>
    intro i h
    have hi : wr i = ERROR_OK := h i le_rfl (by simp)
    simp only [spcArgsLoop, hi]
    rw [if_neg (fun hh => hh rfl)]
    rw [ih (i + 1) (fun j hj1 hj2 => h j (by omega) (by simp at hj2 ⊢; omega))]
    simp

lemma spcArgsLoop_fail (wr : Nat → Int) :
    ∀ (args : List Nat) (i k : Nat),
      k < args.length →
      (∀ j, i ≤ j → j < i + k → wr j = ERROR_OK) →
      wr (i + k) ≠ ERROR_OK →
      spcArgsLoop wr args i =
        (wr (i + k), (args.take (k + 1)).map fun a => (PSOC5_SPC_CPU_DATA, a)) := by
  intro args
  induction args with
  | nil => intro i k hk; simp at hk
  | cons a rest ih =>
    intro i k hk hok hfail
    cases k with
    | zero =>
      simp only [Nat.add_zero] at hfail
      simp only [spcArgsLoop]
      rw [if_pos hfail]
      simp
    | succ n =>
      have hi : wr i = ERROR_OK := hok i le_rfl (by omega)
      simp only [spcArgsLoop, hi]
      rw [if_neg (fun hh => hh rfl)]
      have harith : i + 1 + n = i + (n + 1) := by omega
      have := ih (i + 1) n (by simpa using hk)
        (fun j hj1 hj2 => hok j (by omega) (by omega))
        (by rw [harith]; exact hfail)
      rw [this, harith]
      simp [List.take_succ_cons]

/-- C8: the SPC codec issues exactly key-byte-1, then key-byte-2 plus the
command code, then the command code, then each argument byte in order —
`3 + num_args` single-byte writes to the command register, each checked;
if every write succeeds the full planned sequence is issued with
`ERROR_OK`, and the first failing write aborts the sequence (only the
writes up to and including it are issued) with its error returned. -/
theorem psoc5_spc_command_spec (cmd : Nat) (args : List Nat) (wr : Nat → Int) :
    ((∀ j, j < 3 + args.length → wr j = ERROR_OK) →
      psoc5_spc_command cmd args wr = (ERROR_OK, spcPlannedWrites cmd args) ∧
      (spcPlannedWrites cmd args).length = 3 + args.length) ∧
    (∀ k, k < 3 + args.length → wr k ≠ ERROR_OK → (∀ j, j < k → wr j = ERROR_OK) →
      psoc5_spc_command cmd args wr =
        (wr k, (spcPlannedWrites cmd args).take (k + 1))) := by
  constructor
  · intro h
    have h0 : wr 0 = ERROR_OK := h 0 (by omega)
    have h1 : wr 1 = ERROR_OK := h 1 (by omega)
    have h2 : wr 2 = ERROR_OK := h 2 (by omega)
    refine ⟨?_, by simp [spcPlannedWrites]; omega⟩
    simp only [psoc5_spc_command, h0, h1, h2]
    rw [if_neg (fun hh => hh rfl), if_neg (fun hh => hh rfl), if_neg (fun hh => hh rfl)]
    rw [spcArgsLoop_all_ok wr args 3 (fun j hj1 hj2 => h j (by omega))]
    simp [spcPlannedWrites]
  · intro k hk hfail hok
    rcases k with _ | (_ | (_ | n))
    ·
      simp only [psoc5_spc_command]
      rw [if_pos hfail]
      simp [spcPlannedWrites]
    ·
      have h0 : wr 0 = ERROR_OK := hok 0 (by omega)
      simp only [psoc5_spc_command, h0]
      rw [if_neg (fun hh => hh rfl), if_pos hfail]
      simp [spcPlannedWrites]
    ·
      have h0 : wr 0 = ERROR_OK := hok 0 (by omega)
      have h1 : wr 1 = ERROR_OK := hok 1 (by omega)
      simp only [psoc5_spc_command, h0, h1]
      rw [if_neg (fun hh => hh rfl), if_neg (fun hh => hh rfl), if_pos hfail]
      simp [spcPlannedWrites]
    ·
      have h0 : wr 0 = ERROR_OK := hok 0 (by omega)
      have h1 : wr 1 = ERROR_OK := hok 1 (by omega)
      have h2 : wr 2 = ERROR_OK := hok 2 (by omega)
      simp only [psoc5_spc_command, h0, h1, h2]
      rw [if_neg (fun hh => hh rfl), if_neg (fun hh => hh rfl), if_neg (fun hh => hh rfl)]
      have harith : 3 + n = n + 3 := by omega
      have := spcArgsLoop_fail wr args 3 n (by omega)
        (fun j hj1 hj2 => hok j (by omega)) (by rw [harith]; exact hfail)
      rw [this, harith]
      simp only [spcPlannedWrites]
      rw [List.map_take]
      simp [List.take_succ_cons]

/-- Witness for C8: command `0x09` with two argument bytes; with all five
writes succeeding the planned sequence is issued, and with the fourth
write failing only four writes are issued and its error is returned. -/
theorem psoc5_spc_command_witness :
    psoc5_spc_command 0x09 [0x12, 0x34] (fun _ => ERROR_OK) =
      (ERROR_OK, spcPlannedWrites 0x09 [0x12, 0x34]) ∧
    psoc5_spc_command 0x09 [0x12, 0x34] (fun j => if j = 3 then ERROR_FAIL else ERROR_OK) =
      (ERROR_FAIL, (spcPlannedWrites 0x09 [0x12, 0x34]).take 4) :=
  ⟨((psoc5_spc_command_spec 0x09 [0x12, 0x34] (fun _ => ERROR_OK)).1
      (by intro j hj; rfl)).1,
   by
    have h := (psoc5_spc_command_spec 0x09 [0x12, 0x34]
        (fun j => if j = 3 then ERROR_FAIL else ERROR_OK)).2 3 (by decide)
        (by decide) (by intro j hj; interval_cases j <;> decide)
    simpa using h⟩

lemma pollLoop_exact (status : Nat → Nat) :
    ∀ (k i fuel : Nat),
      (∀ j, i ≤ j → j < i + k → status j &&& PSOC5_SPC_IDLE = 0) →
      status (i + k) &&& PSOC5_SPC_IDLE ≠ 0 →
      k < fuel →
      pollLoop status fuel i = some (i + k + 1) := by
  intro k
  induction k with
  | zero =>
    intro i fuel h hidle hf
    match fuel, hf with
    | f + 1, _ =>
      simp only [Nat.add_zero] at hidle
      simp only [pollLoop]
      rw [if_pos hidle]
  | succ n ih =>
    intro i fuel h hidle hf
    match fuel, hf with
    | f + 1, hf =>
      have h0 : status i &&& PSOC5_SPC_IDLE = 0 := h i le_rfl (by omega)
      simp only [pollLoop]
      rw [if_neg (by simp [h0])]
      have harith : i + 1 + n = i + (n + 1) := by omega
      have := ih (i + 1) f (fun j hj1 hj2 => h j (by omega) (by omega))
        (by rw [harith]; exact hidle) (by omega)
      rw [this, harith]

/-- C9: `psoc5_mass_erase` on a non-halted target fails with the
target-not-halted error and leaves every sector's erase state unchanged;
otherwise it issues the "erase all" SPC command and returns its error when
it fails; on success it polls the status register until the idle bit is
set — if the first idle status is the `k`-th poll the loop performs
exactly `k + 1` polls, and `k` is unbounded over status streams — then
marks every sector erased and returns success. -/
theorem psoc5_mass_erase_spec (env : EraseEnv) (sectors : List Int) (fuel k : Nat) :
    (env.halted = false →
      psoc5_mass_erase env sectors fuel = some (ERROR_TARGET_NOT_HALTED, sectors, 0)) ∧
    (env.halted = true →
      (psoc5_spc_command PSOC5_CMD_ERASE_ALL [] env.spcWr).1 ≠ ERROR_OK →
      psoc5_mass_erase env sectors fuel =
        some ((psoc5_spc_command PSOC5_CMD_ERASE_ALL [] env.spcWr).1, sectors, 0)) ∧
    (env.halted = true →
      (psoc5_spc_command PSOC5_CMD_ERASE_ALL [] env.spcWr).1 = ERROR_OK →
      (∀ j, j < k → env.status j &&& PSOC5_SPC_IDLE = 0) →
      env.status k &&& PSOC5_SPC_IDLE ≠ 0 →
      k < fuel →
      psoc5_mass_erase env sectors fuel =
        some (ERROR_OK, sectors.map fun _ => 1, k + 1)) ∧
    (∀ n : Nat, ∃ env' : EraseEnv, ∃ fuel' : Nat, env'.halted = true ∧
      psoc5_mass_erase env' sectors fuel' =
        some (ERROR_OK, sectors.map fun _ => 1, n + 1)) := by
  refine ⟨fun hh => ?_, fun hh hf => ?_, fun hh hok hpre hidle hfuel => ?_, fun n => ?_⟩
  · simp only [psoc5_mass_erase, hh]
    simp
  · simp only [psoc5_mass_erase, hh]
    rw [if_neg (by simp), if_pos hf]
  · simp only [psoc5_mass_erase, hh]
    rw [if_neg (by simp), if_neg (fun hc => hc hok)]
    rw [pollLoop_exact env.status k 0 fuel (fun j hj1 hj2 => hpre j (by omega))
      (by simpa using hidle) hfuel]
    simp
  · refine ⟨⟨true, fun _ => ERROR_OK, fun i => if i = n then PSOC5_SPC_IDLE else 0⟩,
      n + 1, rfl, ?_⟩
    simp only [psoc5_mass_erase]
    rw [if_neg (by simp)]
    have hspc : (psoc5_spc_command PSOC5_CMD_ERASE_ALL []
        (fun _ => ERROR_OK)).1 = ERROR_OK := by decide
    rw [if_neg (fun hc => hc hspc)]
    rw [pollLoop_exact (fun i => if i = n then PSOC5_SPC_IDLE else 0) n 0 (n + 1)
      (fun j hj1 hj2 => by simp only [if_neg (by omega : ¬ j = n)]; rfl)
      (by simp [PSOC5_SPC_IDLE]) (by omega)]
    simp

/-- Witness for C9: a halted target whose third status poll is the first
with the idle bit set — three polls, every sector marked erased. -/
theorem psoc5_mass_erase_witness :
    psoc5_mass_erase
        ⟨true, fun _ => ERROR_OK, fun i => if i = 2 then 2 else 0⟩ [-1, -1, 0] 5 =
      some (ERROR_OK, [1, 1, 1], 3) ∧
    psoc5_mass_erase
        ⟨false, fun _ => ERROR_OK, fun _ => 2⟩ [-1, 0] 5 =
      some (ERROR_TARGET_NOT_HALTED, [-1, 0], 0) := by
  constructor
  · have h := (psoc5_mass_erase_spec
        ⟨true, fun _ => ERROR_OK, fun i => if i = 2 then 2 else 0⟩ [-1, -1, 0] 5 2).2.2.1
        rfl (by decide) (by intro j hj; interval_cases j <;> decide) (by decide)
        (by decide)
    simpa using h
  · have h := (psoc5_mass_erase_spec
        ⟨false, fun _ => ERROR_OK, fun _ => 2⟩ [-1, 0] 5 0).1 rfl
    simpa using h

lemma psoc5_probe_ok_elim (user max_kb : Nat) (env : ProbeEnv) (out : ProbeOut)
    (hok : psoc5_probe user max_kb env = .ok out) :
    env.halted = true ∧ env.idReadRet = ERROR_OK ∧
    out.flash_size_in_kb = (if user ≠ 0 then user / 1024 else 256) ∧
    out.details = psoc5_details_by_id env.siliconId ∧
    (out.mismatchLogged = true ↔
      ∃ d, psoc5_details_by_id env.siliconId = some d ∧ d.flash_size_in_kb ≠ 256) ∧
    out.row_size = 256 ∧
    out.num_sectors = out.flash_size_in_kb * 1024 / 256 ∧
    0 < out.num_sectors ∧
    out.size = out.num_sectors * 256 ∧
    out.silicon_id = env.siliconId := by
  cases henv : env.halted with
  | false => simp [psoc5_probe, henv] at hok
  | true =>
  by_cases hret : env.idReadRet = ERROR_OK
  case neg => simp [psoc5_probe, henv, hret] at hok
  case pos =>
  cases hd : psoc5_details_by_id env.siliconId with
  | none =>
    by_cases hu : user = 0
    · simp [psoc5_probe, henv, hret, hd, hu] at hok
      subst hok
      refine ⟨rfl, hret, by simp [hu], rfl, by simp, rfl, by norm_num, by norm_num,
        by norm_num, rfl⟩
    · simp [psoc5_probe, henv, hret, hd, hu] at hok
      split at hok
      · simp at hok
      · split at hok
        · simp at hok
        · next h1 h2 =>
          simp at hok
          subst hok
          exact ⟨rfl, hret, by simp [hu], rfl, by simp, rfl, rfl,
            Nat.pos_of_ne_zero h2, rfl, rfl⟩
  | some d =>
    by_cases hdf : d.flash_size_in_kb = 256
    · by_cases hu : user = 0
      · simp [psoc5_probe, henv, hret, hd, hu, hdf] at hok
        subst hok
        refine ⟨rfl, hret, by simp [hu], rfl, by simp [hdf], rfl, by norm_num,
          by norm_num, by norm_num, rfl⟩
      · simp [psoc5_probe, henv, hret, hd, hu, hdf] at hok
        split at hok
        · simp at hok
        · split at hok
          · simp at hok
          · next h1 h2 =>
            simp at hok
            subst hok
            exact ⟨rfl, hret, by simp [hu], rfl, by simp [hdf], rfl, rfl,
              Nat.pos_of_ne_zero h2, rfl, rfl⟩
    · have hdf2 : (256 : Nat) ≠ d.flash_size_in_kb := fun hc => hdf hc.symm
      by_cases hu : user = 0
      · simp [psoc5_probe, henv, hret, hd, hu, hdf2] at hok
        subst hok
        refine ⟨rfl, hret, by simp [hu], rfl, by simp [hdf], rfl, by norm_num,
          by norm_num, by norm_num, rfl⟩
      · simp [psoc5_probe, henv, hret, hd, hu, hdf2] at hok
        split at hok
        · simp at hok
        · split at hok
          · simp at hok
          · next h1 h2 =>
            simp at hok
            subst hok
            exact ⟨rfl, hret, by simp [hu], rfl, by simp [hdf], rfl, rfl,
              Nat.pos_of_ne_zero h2, rfl, rfl⟩

/-- C3 (amended): the device-table lookup scans the static table linearly
and returns the first record whose key matches the silicon ID exactly, and
`none` ("unknown", not an error) when no record matches; the lookup key is
the RAW silicon ID — `psoc5_probe` passes it unmasked, so no die-revision
masking takes place. -/
theorem psoc5_details_lookup_spec (silicon_id : Nat) :
    (psoc5_details_by_id silicon_id = none ↔
      ∀ d ∈ psoc5_devices, d.id ≠ silicon_id) ∧
    (∀ d, psoc5_details_by_id silicon_id = some d →
      d.id = silicon_id ∧
      ∃ i, ∃ hi : i < psoc5_devices.length,
        psoc5_devices.get ⟨i, hi⟩ = d ∧
        ∀ j, ∀ hj : j < i, (psoc5_devices.get ⟨j, by omega⟩).id ≠ silicon_id) ∧
    (∀ (user max_kb : Nat) (env : ProbeEnv) (out : ProbeOut),
      psoc5_probe user max_kb env = .ok out →
      out.details = psoc5_details_by_id env.siliconId) := by
  refine ⟨?_, ?_, ?_⟩
  · rw [psoc5_details_by_id, List.find?_eq_none]
    constructor
    · intro h d hd
      have := h d hd
      simpa using this
    · intro h d hd
      simp [h d hd]
  · intro d hd
    rw [psoc5_details_by_id, List.find?_eq_some_iff_getElem] at hd
    obtain ⟨hp, i, hi, hgi, hprev⟩ := hd
    refine ⟨by simpa using hp, i, hi, by simpa using hgi, fun j hj => ?_⟩
    have := hprev j hj
    simpa using this
  · intro user max_kb env out hok
    exact (psoc5_probe_ok_elim user max_kb env out hok).2.2.2.1

/-- Counterexample for C3's masking conjunct: `0x2e101068` agrees with the
table entry `0x2e101069` everywhere above the low (die-revision) bits, yet
the lookup returns "unknown" for it — the code never masks the ID, so an
ID differing from a table entry only in its revision bits does not match. -/
theorem psoc5_details_lookup_counterexample :
    psoc5_details_by_id 0x2e101069 =
      some ⟨0x2e101069, "CY8C5666AXI-LP001", "TQFP-100", 64⟩ ∧
    (0x2e101068 : Nat) >>> 16 = (0x2e101069 : Nat) >>> 16 ∧
    (0x2e101068 : Nat) ≠ 0x2e101069 ∧
    psoc5_details_by_id 0x2e101068 = none :=
  ⟨rfl, by decide, by decide, rfl⟩

/-- Witness for C3 (amended): a concrete absent ID yields `none`, matching
the exhaustive no-match condition. -/
theorem psoc5_details_lookup_witness :
    psoc5_details_by_id 0x12345678 = none :=
  (psoc5_details_lookup_spec 0x12345678).1.mpr (by decide)

/-- C4 (amended): probe never adopts a found device record's
`flash_size_in_kb` — the hard-coded 256 kb default wins and a differing
record size is only logged as a mismatch; a non-zero user-configured bank
size always wins (in whole kb); and on success the row count divides the
flash size exactly (`row_count * row_size = size_kb * 1024`), is strictly
positive, and determines the bank size. -/
theorem psoc5_probe_size_spec (user max_kb : Nat) (env : ProbeEnv) (out : ProbeOut)
    (hok : psoc5_probe user max_kb env = .ok out) :
    (user = 0 → out.flash_size_in_kb = 256 ∧
      (out.mismatchLogged = true ↔
        ∃ d, psoc5_details_by_id env.siliconId = some d ∧ d.flash_size_in_kb ≠ 256)) ∧
    (user ≠ 0 → out.flash_size_in_kb = user / 1024) ∧
    out.num_sectors * out.row_size = out.flash_size_in_kb * 1024 ∧
    0 < out.num_sectors ∧
    out.size = out.num_sectors * out.row_size := by
  obtain ⟨_, _, hkb, _, hmm, hrow, hnum, hpos, hsize, _⟩ :=
    psoc5_probe_ok_elim user max_kb env out hok
  refine ⟨fun hu => ⟨by simp [hkb, hu], hmm⟩, fun hu => by simp [hkb, hu], ?_, hpos, ?_⟩
  · rw [hnum, hrow]
    exact Nat.div_mul_cancel ⟨out.flash_size_in_kb * 4, by ring⟩
  · rw [hsize, hrow]

/-- Counterexample for C4's record-adoption conjunct: probing silicon ID
`0x2e101069` (a 64 kb device per its table record) with no user override
yields a 256 kb bank, not 64 kb. -/
theorem psoc5_probe_size_counterexample :
    psoc5_details_by_id 0x2e101069 =
      some ⟨0x2e101069, "CY8C5666AXI-LP001", "TQFP-100", 64⟩ ∧
    probeFlashKb (psoc5_probe 0 0 ⟨true, ERROR_OK, 0x2e101069⟩) = some 256 ∧
    (256 : Nat) ≠ 64 :=
  ⟨rfl, rfl, by norm_num⟩

/-- Witness for C4 (amended) at a concrete probe: a 1024-byte user
override on an unknown ID gives a 1 kb bank of 4 rows. -/
theorem psoc5_probe_size_witness :
    probeOutSample.flash_size_in_kb = 1024 / 1024 ∧
    probeOutSample.num_sectors * probeOutSample.row_size =
      probeOutSample.flash_size_in_kb * 1024 ∧
    0 < probeOutSample.num_sectors ∧
    probeOutSample.size = probeOutSample.num_sectors * probeOutSample.row_size :=
  have h := psoc5_probe_size_spec 1024 0 ⟨true, ERROR_OK, 0⟩ probeOutSample rfl
  ⟨h.2.1 (by norm_num), h.2.2.1, h.2.2.2.1, h.2.2.2.2⟩

end OpenOCD
